import Mathlib

/-
Verification development for the TgAlertBot monitoring-and-alert pipeline.

Shallow embedding of the relevant parts of src/database.py, src/telegram_bot.py
and src/starknet_monitor.py. Python floats are modelled as exact rationals (ℚ):
every claim settled here depends only on zero-tests, equalities and order
comparisons of small quantities, not on rounding. Wall-clock values
(datetime.now().isoformat()) are passed in as an explicit `now : String`
parameter. Network and sqlite effects are modelled by explicit parameters:
response payloads are inputs, and a `fault : Bool` flag models the underlying
call raising an exception that the corresponding handler catches.
-/

namespace TgAlert

/-- Dedup store: the contents of the `last_transactions` table, one row per
`(chat_id, tx_hash)` pair, which is the composite primary key
(src/database.py lines 32-39). -/
abbrev Store := List (Int × String)

/-- Embedding of `Database.is_transaction_processed` (src/database.py lines
162-174). `fault = true` models the sqlite connect/query raising: the handler
logs and returns `False`. Otherwise the function reports whether a row with
the composite key exists (`fetchone() is not None`). -/
def is_transaction_processed (fault : Bool) (store : Store) (chat_id : Int)
    (tx_hash : String) : Bool :=
  if fault then false
  else decide ((chat_id, tx_hash) ∈ store)

/-- Embedding of `Database.add_transaction` (src/database.py lines 147-160):
an `INSERT OR IGNORE` keyed on the composite primary key. Returns the updated
store and `cursor.rowcount > 0` (false when the row already existed).
`fault = true` models the sqlite call raising: the handler logs and returns
`False`, leaving the store unchanged. -/
def add_transaction (fault : Bool) (store : Store) (chat_id : Int)
    (tx_hash : String) : Store × Bool :=
  if fault then (store, false)
  else if (chat_id, tx_hash) ∈ store then (store, false)
  else ((chat_id, tx_hash) :: store, true)

/-- Alert payload: the dict produced by `StarknetMonitor.calculate_buy_metrics`
(src/starknet_monitor.py lines 245-258) and consumed by
`TelegramBot.send_buy_alert`. All keys are always set by the producer, so the
fields are total. Defaults mirror the producer's fallback values. -/
structure Metrics where
  spent_usd : ℚ := 0
  spent_base : ℚ := 0
  base_currency : String := "STRK"
  bought_amount : ℚ := 0
  supply_percentage : ℚ := 0
  current_price : ℚ := 0
  market_cap : ℚ := 0
  total_supply : Int := 0
  holder_count : Int := 143
  tx_hash : String := ""
  timestamp : String := ""
  token_symbol : String := ""
deriving DecidableEq

/-- Observable outcome of one `TelegramBot.send_buy_alert` call:
the dedup store afterwards, whether `send_message` was invoked (`sent`),
whether the underlying HTTP POST succeeded (`delivered`; `send_message`
catches `RequestException` and returns `None`, so a failure is invisible to
the caller), whether `is_transaction_processed` was invoked (`lookedUp`), and
whether `add_transaction` was invoked (`recorded`). -/
structure SendResult where
  store : Store
  sent : Bool
  delivered : Bool
  lookedUp : Bool
  recorded : Bool
deriving DecidableEq

/-- Embedding of `TelegramBot.send_buy_alert` (src/telegram_bot.py lines
400-437). Control flow of the source:
1. `tx_hash = metrics.get('tx_hash', '')`;
2. `if tx_hash and self.db.is_transaction_processed(chat_id, tx_hash): return`
   — the dedup lookup is evaluated only when `tx_hash` is nonempty (Python
   truthiness short-circuit);
3. the alert text is formatted (pure rendering of total fields, elided here;
   it cannot raise on a payload produced by `calculate_buy_metrics`) and
   `send_message` is called — `deliveryOk` is whether the HTTP POST succeeds;
   `send_message` (lines 38-54) catches `RequestException` internally and
   returns `None`, and `send_buy_alert` ignores the return value;
4. `if tx_hash: self.db.add_transaction(chat_id, tx_hash)`.
The surrounding `try/except` never fires on the modelled paths, because every
modelled step returns normally. -/
def send_buy_alert (readFault writeFault deliveryOk : Bool) (store : Store)
    (chat_id : Int) (metrics : Metrics) : SendResult :=
  if metrics.tx_hash ≠ "" ∧
      is_transaction_processed readFault store chat_id metrics.tx_hash = true then
    { store := store, sent := false, delivered := false,
      lookedUp := true, recorded := false }
  else if metrics.tx_hash ≠ "" then
    { store := (add_transaction writeFault store chat_id metrics.tx_hash).1,
      sent := true, delivered := deliveryOk,
      lookedUp := true, recorded := true }
  else
    { store := store, sent := true, delivered := deliveryOk,
      lookedUp := false, recorded := false }

/-- Number of times the alert message for the pair `(c, h)` is handed to
`send_message` across a sequence of `send_buy_alert` invocations (the calls
the sweep cycles make through the delivery callback), threading the dedup
store. Each step carries the delivery outcome of its HTTP POST. The store
reads and writes are fault-free (`readFault = writeFault = false`), matching
the availability assumption of the dedup store. -/
def sendsFor (c : Int) (h : String) : Store → List (Bool × Int × Metrics) → Nat
  | _, [] => 0
  | store, step :: rest =>
    (if step.2.1 = c ∧ step.2.2.tx_hash = h ∧
        (send_buy_alert false false step.1 store step.2.1 step.2.2).sent = true
      then 1 else 0) +
      sendsFor c h (send_buy_alert false false step.1 store step.2.1 step.2.2).store rest

/-- JSON scalar as it can appear in an upstream `amount` field: a number
(Python `int`/`float`, modelled exactly as ℚ) or a string. -/
inductive JVal where
  | num (q : ℚ)
  | str (s : String)
deriving DecidableEq

/-- StarkScan event record, as read by `_parse_starkscan_event`
(src/starknet_monitor.py lines 123-164). Every access in the source is a
`.get` with the default shown here, so the fields are total. The elements of
`data` are modelled as strings; a non-string element would make
`amount_hex.startswith` raise `AttributeError`, which the routine's broad
handler turns into `None` (dropped), same as a failed decode. -/
structure SSEvent where
  name : String := ""
  keys : List String := []
  data : List String := []
  transaction_hash : String := ""
deriving DecidableEq

/-- Voyager transaction record, as read by `_parse_voyager_transaction`
(src/starknet_monitor.py lines 193-219). Each field is `none` when the key is
absent from the JSON object. -/
structure VTx where
  type : Option String := none
  amount : Option JVal := none
  hash : Option String := none
  timestamp : Option String := none
  from_address : Option String := none
deriving DecidableEq

/-- Canonical transaction/event shape produced by both parsing routines and
consumed by the monitoring loop. -/
structure Tx where
  tx_hash : String := ""
  type : String := ""
  amount_usd : ℚ := 0
  amount_token : ℚ := 0
  amount_base : ℚ := 0
  base_currency : String := "ETH"
  timestamp : String := ""
  buyer : String := ""
deriving DecidableEq

/-- Decides whether the first list is a prefix of the second. -/
def isPrefixList : List Char → List Char → Bool
  | [], _ => true
  | _ :: _, [] => false
  | a :: as, b :: bs => a = b && isPrefixList as bs

/-- Decides whether `needle` occurs as a contiguous sublist of the second
argument. -/
def subOccurs (needle : List Char) : List Char → Bool
  | [] => isPrefixList needle []
  | c :: rest => isPrefixList needle (c :: rest) || subOccurs needle rest

/-- Python `needle in hay` substring test. -/
def strContains (hay needle : String) : Bool :=
  subOccurs needle.toList hay.toList

/-- Python `str.lower()` for the ASCII range (upstream event names are
ASCII identifiers). -/
def lowerStr (s : String) : String :=
  String.mk (s.toList.map Char.toLower)

/-- Hexadecimal digit test for Python `int(s, 16)`. -/
def isHexChar (c : Char) : Bool :=
  c.isDigit || ('a' ≤ c && c ≤ 'f') || ('A' ≤ c && c ≤ 'F')

/-- Value of a hexadecimal digit. -/
def hexVal (c : Char) : Nat :=
  if c.isDigit then c.toNat - '0'.toNat
  else if 'a' ≤ c && c ≤ 'f' then c.toNat - 'a'.toNat + 10
  else c.toNat - 'A'.toNat + 10

/-- Parse a nonempty all-hex digit list, most significant first. -/
def parseHexNat (cs : List Char) : Option Nat :=
  if cs = [] then none
  else if cs.all isHexChar then
    some (cs.foldl (fun a c => a * 16 + hexVal c) 0)
  else none

/-- Parse a nonempty all-decimal digit list, most significant first. -/
def parseDecNat (cs : List Char) : Option Nat :=
  if cs = [] then none
  else if cs.all Char.isDigit then
    some (cs.foldl (fun a c => a * 10 + (c.toNat - '0'.toNat)) 0)
  else none

/-- Python `int(s)` (base 10): optional sign then digits, `ValueError`
otherwise (modelled as `none`). Surrounding whitespace and underscore
grouping are not modelled. -/
def pyInt (s : String) : Option Int :=
  match s.toList with
  | '-' :: rest => (parseDecNat rest).map (fun n => -(n : Int))
  | '+' :: rest => (parseDecNat rest).map Int.ofNat
  | cs => (parseDecNat cs).map Int.ofNat

/-- Python `int(s, 16)` under the guard `s.startswith('0x')`: the prefix is
stripped and the rest must be nonempty hex digits. -/
def pyIntHex (s : String) : Option Int :=
  match s.toList with
  | '0' :: 'x' :: rest => (parseHexNat rest).map Int.ofNat
  | _ => none

/-- Amount decoding step of `_parse_starkscan_event` (line 141):
`int(amount_hex, 16) if amount_hex.startswith('0x') else int(amount_hex)`;
a `ValueError` (here `none`) is caught and logged as a warning. -/
def decodeAmount (s : String) : Option Int :=
  if s.toList.take 2 = ['0', 'x'] then pyIntHex s else pyInt s

/-- Embedding of `StarknetMonitor._parse_starkscan_event`
(src/starknet_monitor.py lines 123-164). A record yields an event only when
`'transfer'` occurs in the lowercased event name, `len(data) >= 3`, and the
amount string decodes; on a decode `ValueError` the routine logs a warning
and returns `None`. `now` stands for `datetime.now().isoformat()`. The
unused locals `keys` and `from_addr` of the source are omitted. -/
def parse_starkscan_event (now : String) (e : SSEvent) : Option Tx :=
  if strContains (lowerStr e.name) "transfer" then
    if 3 ≤ e.data.length then
      match decodeAmount (e.data.getD 2 "0x0") with
      | some amount =>
        let amount_tokens : ℚ := (amount : ℚ) / 10 ^ 18
        let amount_usd : ℚ := amount_tokens * 3700
        some { tx_hash := e.transaction_hash, type := "buy",
               amount_usd := amount_usd, amount_token := amount_tokens,
               amount_base := amount_usd / 3700, base_currency := "ETH",
               timestamp := now, buyer := e.data.getD 1 "" }
      | none => none
    else none
  else none

/-- Embedding of `StarknetMonitor._parse_voyager_transaction`
(src/starknet_monitor.py lines 193-219). When `type == 'transfer'`, the
amount is read as `tx_data.get('amount', 0)` — defaulting to `0` when the
key is absent — and used arithmetically with no decoding; a string amount
makes `amount * 0.001` raise `TypeError`, which the broad handler turns into
`None` (dropped). -/
def parse_voyager_transaction (now : String) (t : VTx) : Option Tx :=
  if t.type = some "transfer" then
    match t.amount.getD (JVal.num 0) with
    | JVal.num amount =>
      let amount_usd : ℚ := amount * (1 / 1000)
      some { tx_hash := t.hash.getD "", type := "buy",
             amount_usd := amount_usd, amount_token := amount,
             amount_base := amount_usd / 3700, base_currency := "ETH",
             timestamp := t.timestamp.getD now, buyer := t.from_address.getD "unknown" }
    | JVal.str _ => none
  else none

/-- Embedding of `StarknetMonitor._fetch_starkscan_transactions`
(src/starknet_monitor.py lines 97-121). `resp = none` models a non-200
status, a transport error, or malformed JSON (all degrade to `[]`);
`resp = some events` models a 200 response whose `data` list is `events`.
Parsed events are collected in response order and sliced to the first 10. -/
def fetch_starkscan_transactions (now : String) (resp : Option (List SSEvent)) :
    List Tx :=
  match resp with
  | some events => (events.filterMap (parse_starkscan_event now)).take 10
  | none => []

/-- Embedding of `StarknetMonitor._fetch_voyager_transactions`
(src/starknet_monitor.py lines 166-191). `resp = none` models a non-200
status or error; `resp = some items` models a 200 response whose `items`
list is given. Parsed transactions are returned in response order with no
client-side slicing (the request URL merely asks for page size 10). -/
def fetch_voyager_transactions (now : String) (resp : Option (List VTx)) :
    List Tx :=
  match resp with
  | some items => items.filterMap (parse_voyager_transaction now)
  | none => []

/-- Embedding of `StarknetMonitor.get_recent_transactions`
(src/starknet_monitor.py lines 66-95): try StarkScan first and return its
result if nonempty, otherwise fall back to Voyager, otherwise return `[]`
(never synthesize events). The second component records whether the Voyager
source was consulted (its HTTP call made). Address normalization does not
affect the fallback behaviour and the responses are taken as inputs. -/
def get_recent_transactions (now : String) (ssResp : Option (List SSEvent))
    (vResp : Option (List VTx)) : List Tx × Bool :=
  let t1 := fetch_starkscan_transactions now ssResp
  if t1 ≠ [] then (t1, false)
  else
    let t2 := fetch_voyager_transactions now vResp
    if t2 ≠ [] then (t2, true) else ([], true)

/-- Destination configuration dict, as produced by
`Database.get_all_active_groups` (src/database.py lines 107-130). That query
returns rows of the seven listed columns only, so the dicts it builds carry
no `is_active` key: the field below is `none` for them, and
`config.get('is_active', True)` then defaults to `True`. -/
structure Cfg where
  chat_id : Int
  token_address : String
  token_symbol : String
  dex_name : String
  total_supply : Int
  min_buy_threshold : ℚ
  alert_frequency : String := "every_buy"
  is_active : Option Bool := none
deriving DecidableEq

/-- Python `config.get('is_active', True)` (src/starknet_monitor.py line 279). -/
def cfgActive (c : Cfg) : Bool :=
  c.is_active.getD true

/-- Per-transaction body of the monitoring loop
(src/starknet_monitor.py lines 291-311): the value is whether
`callback_func` is invoked for this transaction. `metrics` is the result of
`calculate_buy_metrics` (an oracle input here: `none` models the empty dict
it returns when no market snapshot is obtainable); it is only consulted when
the event is a buy meeting the threshold, and the callback runs only when it
is nonempty. The threshold test is `amount_usd >= min_threshold`. -/
def process_transaction (config : Cfg) (transaction : Tx)
    (metrics : Option Metrics) : Bool :=
  if transaction.type = "buy" then
    if config.min_buy_threshold ≤ transaction.amount_usd then
      metrics.isSome
    else false
  else false

/-- One pass of the `for config in token_configs` loop of
`StarknetMonitor.monitor_token_purchases` (src/starknet_monitor.py lines
278-311), abstracted over an `outcome` oracle: `outcome c` tells whether the
per-destination work for `c` completes normally or raises (e.g. a `KeyError`
from `config['token_address']` on a malformed dict; the network helpers catch
their own errors). The function returns the active configs whose processing
was started, in order, and the exception that escaped the `for` loop, if
any. There is no `try` inside the loop: a raise propagates out of the `for`
to the `except` at the `while` level (line 317), which is why the error is
returned as a value — it is caught there, the loop sleeps 30 seconds, and
the next sweep starts over. Inactive configs are skipped via `continue`. -/
def sweep_destinations (outcome : Cfg → Except String Unit) :
    List Cfg → List Cfg × Option String
  | [] => ([], none)
  | c :: rest =>
    if cfgActive c then
      match outcome c with
      | Except.ok _ =>
        let p := sweep_destinations outcome rest
        (c :: p.1, p.2)
      | Except.error e => ([c], some e)
    else sweep_destinations outcome rest

/-- Config lists iterated by successive sweeps of
`StarknetMonitor.monitor_token_purchases` (src/starknet_monitor.py lines
267-319), truncated to `sweeps` iterations of its `while True` loop. The
`token_configs` parameter is taken once and never refreshed from anywhere:
every sweep iterates the same list. (The `except` branch also continues with
the same list.) -/
def monitor_token_purchases (sweeps : Nat) (token_configs : List Cfg) :
    List (List Cfg) :=
  match sweeps with
  | 0 => []
  | n + 1 => token_configs :: monitor_token_purchases n token_configs

/-- Embedding of `TelegramBot.start_monitoring` (src/telegram_bot.py lines
439-470). `registry k` is the result of the `k`-th
`Database.get_all_active_groups` call; `callIdx` counts calls made so far;
`outerFuel` bounds the iterations of the outer `while True`; `sweeps` bounds
the sweeps of the inner loop. The function returns the config list iterated
by each sweep, and how many registry calls were made. Control flow of the
source: each outer iteration makes one registry call; on an empty result it
sleeps 60 seconds and retries; on a nonempty result it awaits
`monitor_token_purchases`, which never returns (its internal `except` catches
every sweep error and continues), so no further registry call occurs —
modelled by the nonempty branch consuming the rest of the run. -/
def start_monitoring (registry : Nat → List Cfg) (callIdx : Nat) :
    Nat → Nat → List (List Cfg) × Nat
  | 0, _ => ([], 0)
  | oFuel + 1, sweeps =>
    let gs := registry callIdx
    if gs = [] then
      let p := start_monitoring registry (callIdx + 1) oFuel sweeps
      (p.1, p.2 + 1)
    else
      (monitor_token_purchases sweeps gs, 1)

/-- Sample payload with an empty event hash (`tx_hash` defaults to `""`). -/
def mEmptyHash : Metrics :=
  { tx_hash := "" }

/-- Sample payload with a nonempty event hash. -/
def mAbc : Metrics :=
  { tx_hash := "0xabc" }

/-- Sample payload with every field at its default. -/
def mSample : Metrics :=
  {}

/-- Sample destination config (threshold 50, as in the spec's scenario). -/
def cfgA : Cfg :=
  { chat_id := 1, token_address := "0xaaaa", token_symbol := "AAA",
    dex_name := "Ekubo", total_supply := 1000000, min_buy_threshold := 50 }

/-- Second sample destination config. -/
def cfgB : Cfg :=
  { chat_id := 2, token_address := "0xbbbb", token_symbol := "BBB",
    dex_name := "Ekubo", total_supply := 1000000, min_buy_threshold := 0 }

/-- Registry history where destination B is activated after the first
`get_all_active_groups` call. -/
def registryEx : Nat → List Cfg :=
  fun i => if i = 0 then [cfgA] else [cfgA, cfgB]

/-- Outcome oracle under which processing destination A (chat 1) raises. -/
def failFirst : Cfg → Except String Unit :=
  fun c => if c.chat_id = 1 then Except.error "KeyError" else Except.ok ()

/-- StarkScan transfer event whose amount string fails to decode. -/
def ssBadAmount : SSEvent :=
  { name := "Transfer", data := ["0xf", "0xt", "zzz"], transaction_hash := "0x1" }

/-- StarkScan transfer event that parses successfully. -/
def ssGood : SSEvent :=
  { name := "Transfer", data := ["0xf", "0xt", "0x5"], transaction_hash := "0x2" }

/-- Voyager transfer record with no `amount` key. -/
def vMissingAmount : VTx :=
  { type := some "transfer", amount := none, hash := some "0xdead",
    timestamp := some "ts", from_address := some "0xf" }

/-- Voyager transfer record that parses successfully. -/
def vGood : VTx :=
  { type := some "transfer", amount := some (JVal.num 5), hash := some "0xh",
    timestamp := some "ts", from_address := some "0xf" }

/-- Buy event strictly below the sample threshold of 50. -/
def txBelow : Tx :=
  { tx_hash := "0xb1", type := "buy", amount_usd := 30 }

/-- Buy event exactly at the sample threshold of 50. -/
def txAt : Tx :=
  { tx_hash := "0xb2", type := "buy", amount_usd := 50 }

/-- Steps for the duplicate-delivery counterexample: the same empty-hash
payload delivered to chat 1 on two consecutive sweeps. -/
def emptyHashSteps : List (Bool × Int × Metrics) :=
  [(true, 1, mEmptyHash), (true, 1, mEmptyHash)]

theorem add_transaction_mono (wf : Bool) (store : Store) (c : Int) (h : String)
    (p : Int × String) (hp : p ∈ store) : p ∈ (add_transaction wf store c h).1 := by
  unfold add_transaction
  split_ifs with h1 h2
  · exact hp
  · exact hp
  · exact List.mem_cons_of_mem _ hp

theorem send_buy_alert_store_mono (rf wf dOk : Bool) (store : Store) (chat : Int)
    (m : Metrics) (p : Int × String) (hp : p ∈ store) :
    p ∈ (send_buy_alert rf wf dOk store chat m).store := by
  unfold send_buy_alert
  split_ifs with h1 h2
  · exact hp
  · exact add_transaction_mono wf store chat m.tx_hash p hp
  · exact hp

theorem send_buy_alert_records (dOk : Bool) (store : Store) (chat : Int)
    (m : Metrics) (hne : m.tx_hash ≠ "") :
    (chat, m.tx_hash) ∈ (send_buy_alert false false dOk store chat m).store := by
  unfold send_buy_alert
  split_ifs with h1
  · have h3 := h1.2
    unfold is_transaction_processed at h3
    simpa using h3
  · by_cases hmem : (chat, m.tx_hash) ∈ store <;> simp [add_transaction, hmem]

theorem send_buy_alert_skips_processed (dOk : Bool) (store : Store) (chat : Int)
    (m : Metrics) (hne : m.tx_hash ≠ "") (hmem : (chat, m.tx_hash) ∈ store) :
    (send_buy_alert false false dOk store chat m).sent = false ∧
      (send_buy_alert false false dOk store chat m).store = store := by
  have hproc : is_transaction_processed false store chat m.tx_hash = true := by
    simp [is_transaction_processed, hmem]
  simp [send_buy_alert, hne, hproc]

theorem sendsFor_of_mem (c : Int) (h : String) (hne : h ≠ "") :
    ∀ (steps : List (Bool × Int × Metrics)) (store : Store),
      (c, h) ∈ store → sendsFor c h store steps = 0 := by
  intro steps
  induction steps with
  | nil => intro store _; rfl
  | cons step rest ih =>
    intro store hmem
    unfold sendsFor
    by_cases hm : step.2.1 = c ∧ step.2.2.tx_hash = h
    · have hne2 : step.2.2.tx_hash ≠ "" := by rw [hm.2]; exact hne
      have hmem2 : (step.2.1, step.2.2.tx_hash) ∈ store := by
        rw [hm.1, hm.2]; exact hmem
      have hskip := send_buy_alert_skips_processed step.1 store step.2.1 step.2.2
        hne2 hmem2
      simp only [hskip.1, hskip.2]
      simp only [Bool.false_eq_true, and_false, if_false, Nat.zero_add]
      exact ih store hmem
    · have hcond : ¬ (step.2.1 = c ∧ step.2.2.tx_hash = h ∧
          (send_buy_alert false false step.1 store step.2.1 step.2.2).sent = true) := by
        intro hx
        exact hm ⟨hx.1, hx.2.1⟩
      rw [if_neg hcond, Nat.zero_add]
      exact ih _ (send_buy_alert_store_mono false false step.1 store step.2.1
        step.2.2 _ hmem)

theorem sendsFor_empty_hash_step (c : Int) (store : Store) (d : Bool) (m : Metrics)
    (h0 : m.tx_hash = "") (rest : List (Bool × Int × Metrics)) :
    sendsFor c "" store ((d, c, m) :: rest) = 1 + sendsFor c "" store rest := by
  have hbr : send_buy_alert false false d store c m =
      { store := store, sent := true, delivered := d,
        lookedUp := false, recorded := false } := by
    simp [send_buy_alert, h0]
  show (if c = c ∧ m.tx_hash = "" ∧
      (send_buy_alert false false d store c m).sent = true then 1 else 0) +
      sendsFor c "" (send_buy_alert false false d store c m).store rest =
      1 + sendsFor c "" store rest
  rw [hbr]
  simp [h0]

/-- C1: the claim states that the dedup record step runs only after delivery
completes without error, and that a failed delivery leaves the pair
un-recorded for retry. The code violates this: `send_message` swallows its
`RequestException` and returns `None`, `send_buy_alert` ignores that return
value, and `add_transaction` runs regardless. Evaluated at the failing
input — empty dedup store, payload with hash `0xabc`, HTTP POST failing
(`deliveryOk = false`) — the pair is recorded anyway. -/
theorem C1_failed_delivery_still_recorded :
    send_buy_alert false false false [] 7 mAbc =
      { store := [(7, "0xabc")], sent := true, delivered := false,
        lookedUp := true, recorded := true } := by
  decide

/-- C2 counterexample: the claim quantifies over every event hash, but for the
empty hash the dedup gate is skipped entirely, so the same
`(destination, hash)` pair is delivered on each of two sweeps even though
every dedup-store read and write succeeds. -/
theorem C2_counterexample :
    ¬ (sendsFor 1 "" [] emptyHashSteps ≤ 1) := by
  decide

/-- C2 (amended): for every destination and every NONEMPTY event hash, the
alert message for that pair is delivered at most once across any sequence of
`send_buy_alert` invocations, whatever the interleaving with other pairs,
the delivery outcomes, and the initial store — provided every dedup-store
read and write succeeds. -/
theorem C2_amended_at_most_once (c : Int) (h : String) (hne : h ≠ "")
    (store : Store) (steps : List (Bool × Int × Metrics)) :
    sendsFor c h store steps ≤ 1 := by
  induction steps generalizing store with
  | nil => simp [sendsFor]
  | cons step rest ih =>
    unfold sendsFor
    by_cases hm : step.2.1 = c ∧ step.2.2.tx_hash = h ∧
        (send_buy_alert false false step.1 store step.2.1 step.2.2).sent = true
    · rw [if_pos hm, hm.1]
      have hne2 : step.2.2.tx_hash ≠ "" := by rw [hm.2.1]; exact hne
      have hrec := send_buy_alert_records step.1 store c step.2.2 hne2
      rw [hm.2.1] at hrec
      rw [sendsFor_of_mem c h hne rest _ hrec]
    · rw [if_neg hm, Nat.zero_add]
      exact ih _

/-- C2 witness: two consecutive sweeps offering the same nonempty hash to the
same destination result in at most one delivery. -/
theorem C2_amended_at_most_once_witness :
    sendsFor 1 "0xabc" [] [(true, 1, mAbc), (true, 1, mAbc)] ≤ 1 :=
  C2_amended_at_most_once 1 "0xabc" (by decide) []
    [(true, 1, mAbc), (true, 1, mAbc)]

/-- C3 counterexample: with two active destinations where processing the
first raises, the sweep attempts only the first; the second destination is
never processed in that sweep, contradicting destination-granularity
isolation. -/
theorem C3_counterexample :
    sweep_destinations failFirst [cfgA, cfgB] = ([cfgA], some "KeyError") ∧
      cfgB ∉ (sweep_destinations failFirst [cfgA, cfgB]).1 := by
  have hrun : sweep_destinations failFirst [cfgA, cfgB] = ([cfgA], some "KeyError") :=
    rfl
  refine ⟨hrun, ?_⟩
  rw [hrun]
  simp [cfgA, cfgB]

/-- C3 (amended): an exception raised while processing one destination aborts
the remaining destinations of the current sweep — the configs processed are
exactly the active prefix up to and including the failing one — and the
exception is caught at sweep granularity (returned, not propagated), so the
loop survives to the next sweep. -/
theorem C3_amended_sweep_abort (outcome : Cfg → Except String Unit)
    (pre : List Cfg) (c : Cfg) (post : List Cfg) (e : String)
    (hpre : ∀ a ∈ pre, cfgActive a = true → outcome a = Except.ok ())
    (hc : cfgActive c = true) (he : outcome c = Except.error e) :
    sweep_destinations outcome (pre ++ c :: post) =
      (pre.filter cfgActive ++ [c], some e) := by
  induction pre with
  | nil => simp [sweep_destinations, hc, he]
  | cons a pre2 ih =>
    have ih2 := ih (fun x hx => hpre x (List.mem_cons_of_mem a hx))
    by_cases ha : cfgActive a = true
    · have hok := hpre a (List.mem_cons_self a pre2) ha
      simp [sweep_destinations, ha, hok, ih2, List.filter_cons]
    · have ha2 : cfgActive a = false := by
        cases hb : cfgActive a
        · rfl
        · exact absurd hb ha
      simp [sweep_destinations, ha2, ih2, List.filter_cons]

/-- C3 witness: destination B processes fine, destination A raises, a trailing
copy of B is aborted; the caught exception is reported at sweep level. -/
theorem C3_amended_sweep_abort_witness :
    sweep_destinations failFirst ([cfgB] ++ cfgA :: [cfgB]) =
      (List.filter cfgActive [cfgB] ++ [cfgA], some "KeyError") :=
  C3_amended_sweep_abort failFirst [cfgB] cfgA [cfgB] "KeyError"
    (by
      intro a ha hact
      simp only [List.mem_singleton] at ha
      subst ha
      rfl)
    rfl rfl

/-- C4: the claim states that every sweep begins with a fresh registry read.
The code violates this: `monitor_token_purchases` never returns, so
`start_monitoring` calls `get_all_active_groups` exactly once. Evaluated at a
registry history where destination B is activated after the first call: two
sweeps run, both iterate only `[cfgA]`, one registry call is made, and B —
present in the registry from call 1 on — never appears in a sweep. -/
theorem C4_single_registry_call :
    start_monitoring registryEx 0 5 2 = ([[cfgA], [cfgA]], 1) ∧
      cfgB ∈ registryEx 1 ∧ cfgB ∉ [cfgA] := by
  refine ⟨rfl, ?_, ?_⟩
  · simp [registryEx]
  · simp [cfgA, cfgB]

/-- C5 (amended): the StarkScan parsing routine emits an event only when the
record is transfer-identified and its amount string decodes, and drops the
record on decode failure; the Voyager routine, however, performs no decoding:
a transfer record with a missing amount field is emitted as a buy event with
amount zero (the `.get('amount', 0)` default), while a string-valued amount
is dropped via the `TypeError` handler. -/
theorem C5_parse_amount_handling (now : String) :
    (∀ e tx, parse_starkscan_event now e = some tx →
        strContains (lowerStr e.name) "transfer" = true ∧
        (decodeAmount (e.data.getD 2 "0x0")).isSome = true) ∧
    (∀ e, strContains (lowerStr e.name) "transfer" = true → 3 ≤ e.data.length →
        decodeAmount (e.data.getD 2 "0x0") = none →
        parse_starkscan_event now e = none) ∧
    (∀ t, t.type = some "transfer" → t.amount = none →
        parse_voyager_transaction now t =
          some { tx_hash := t.hash.getD "", type := "buy", amount_usd := 0,
                 amount_token := 0, amount_base := 0, base_currency := "ETH",
                 timestamp := t.timestamp.getD now,
                 buyer := t.from_address.getD "unknown" }) ∧
    (∀ t s, t.type = some "transfer" → t.amount = some (JVal.str s) →
        parse_voyager_transaction now t = none) := by
  refine ⟨?_, ?_, ?_, ?_⟩
  · intro e tx hp
    unfold parse_starkscan_event at hp
    split_ifs at hp with h1 h2
    cases hd : decodeAmount (e.data.getD 2 "0x0") with
    | some a => exact ⟨h1, rfl⟩
    | none => rw [hd] at hp; simp at hp
  · intro e h1 h2 h3
    unfold parse_starkscan_event
    rw [if_pos h1, if_pos h2, h3]
  · intro t ht ha
    simp [parse_voyager_transaction, ht, ha]
  · intro t s ht ha
    simp [parse_voyager_transaction, ht, ha]

/-- C5 counterexample: a Voyager transfer record with no amount field is not
dropped — it is emitted as a buy event whose amount is zero, contradicting
the claim that undecodable amounts are never emitted as zero-amount events. -/
theorem C5_counterexample :
    (parse_voyager_transaction "now" vMissingAmount).map Tx.amount_usd = some 0 ∧
    (parse_voyager_transaction "now" vMissingAmount).map Tx.type = some "buy" := by
  constructor
  · simp [parse_voyager_transaction, vMissingAmount]
  · simp [parse_voyager_transaction, vMissingAmount]

/-- C5 witness: a StarkScan transfer with an undecodable amount is dropped,
while a Voyager transfer with a missing amount is emitted at amount zero. -/
theorem C5_parse_amount_handling_witness :
    parse_starkscan_event "now" ssBadAmount = none ∧
    parse_voyager_transaction "now" vMissingAmount =
      some { tx_hash := "0xdead", type := "buy", amount_usd := 0,
             amount_token := 0, amount_base := 0, base_currency := "ETH",
             timestamp := "ts", buyer := "0xf" } :=
  ⟨(C5_parse_amount_handling "now").2.1 ssBadAmount (by decide) (by decide)
      (by decide),
   by
     have h := (C5_parse_amount_handling "now").2.2.1 vMissingAmount rfl rfl
     simpa [vMissingAmount] using h⟩

/-- C6 counterexample: a Voyager response with 11 parseable transfer items
makes the adapter return 11 events — the result size is not capped at 10 on
the Voyager path. -/
theorem C6_counterexample :
    ¬ ((get_recent_transactions "now" (some [])
        (some (List.replicate 11 vGood))).1.length ≤ 10) := by
  decide

/-- C6 (amended): the StarkScan path caps its result at 10 by slicing, so the
adapter's output has length at most 10 whenever StarkScan produced it; the
Voyager path performs no client-side cap (the request merely asks for page
size 10), so otherwise the output equals Voyager's full parsed list. -/
theorem C6_amended_cap (now : String) (ssResp : Option (List SSEvent))
    (vResp : Option (List VTx)) :
    (fetch_starkscan_transactions now ssResp).length ≤ 10 ∧
    ((get_recent_transactions now ssResp vResp).1.length ≤ 10 ∨
      (get_recent_transactions now ssResp vResp).1 =
        fetch_voyager_transactions now vResp) := by
  have hss : (fetch_starkscan_transactions now ssResp).length ≤ 10 := by
    cases ssResp with
    | none => simp [fetch_starkscan_transactions]
    | some events =>
      simp only [fetch_starkscan_transactions, List.length_take]
      omega
  refine ⟨hss, ?_⟩
  simp only [get_recent_transactions]
  split_ifs with h1 h2
  · exact Or.inl hss
  · exact Or.inr rfl
  · exact Or.inl (by simp)

/-- C7: the threshold comparison of the monitoring loop is inclusive — the
delivery callback is never invoked for a buy whose quote amount is strictly
below the destination's `min_buy_threshold`, and it is invoked for a buy
whose amount equals the threshold exactly, whenever the metrics computation
succeeds. -/
theorem C7_threshold (config : Cfg) (tx : Tx) (metrics : Option Metrics) :
    (tx.amount_usd < config.min_buy_threshold →
      process_transaction config tx metrics = false) ∧
    (tx.amount_usd = config.min_buy_threshold → tx.type = "buy" →
      metrics.isSome = true → process_transaction config tx metrics = true) := by
  constructor
  · intro hlt
    unfold process_transaction
    split_ifs with h1 h2
    · exact absurd h2 (not_le.mpr hlt)
    · rfl
    · rfl
  · intro heq hbuy hsome
    simp [process_transaction, hbuy, heq, hsome]

/-- C7 witness: with threshold 50, a 30-dollar buy is filtered out and a
50-dollar buy triggers the callback. -/
theorem C7_threshold_witness :
    process_transaction cfgA txBelow (some mSample) = false ∧
    process_transaction cfgA txAt (some mSample) = true :=
  ⟨(C7_threshold cfgA txBelow (some mSample)).1 (by norm_num [txBelow, cfgA]),
   (C7_threshold cfgA txAt (some mSample)).2 (by norm_num [txAt, cfgA]) rfl rfl⟩

/-- C8: when StarkScan yields an empty parsed list, the adapter's output is
exactly Voyager's parsed list, unmodified in order; when StarkScan yields at
least one parsed event, the Voyager source is not consulted and the output is
StarkScan's list. -/
theorem C8_fallback_order (now : String) (ssResp : Option (List SSEvent))
    (vResp : Option (List VTx)) :
    (fetch_starkscan_transactions now ssResp = [] →
      (get_recent_transactions now ssResp vResp).1 =
        fetch_voyager_transactions now vResp) ∧
    (fetch_starkscan_transactions now ssResp ≠ [] →
      get_recent_transactions now ssResp vResp =
        (fetch_starkscan_transactions now ssResp, false)) := by
  constructor
  · intro h0
    simp only [get_recent_transactions]
    rw [if_neg (by simp [h0])]
    split_ifs with h2
    · rfl
    · simp only [ne_eq, not_not] at h2
      exact h2.symm
  · intro h1
    simp only [get_recent_transactions]
    rw [if_pos h1]

/-- C8 witness: with an empty StarkScan response the output equals Voyager's
parsed list; with a parseable StarkScan event the chain short-circuits and
Voyager is not consulted. -/
theorem C8_fallback_order_witness :
    (get_recent_transactions "now" (some []) (some [vGood])).1 =
      fetch_voyager_transactions "now" (some [vGood]) ∧
    get_recent_transactions "now" (some [ssGood]) (some [vGood]) =
      (fetch_starkscan_transactions "now" (some [ssGood]), false) :=
  ⟨(C8_fallback_order "now" (some []) (some [vGood])).1 (by decide),
   (C8_fallback_order "now" (some [ssGood]) (some [vGood])).2 (by decide)⟩

/-- C9: for an alert payload whose `tx_hash` is the empty string, the
delivery path skips both the dedup lookup and the record step, leaves the
store untouched, still sends the message — and therefore re-alerts on every
one of `n` consecutive sweeps offering the same event. -/
theorem C9_empty_hash (rf wf dOk : Bool) (store : Store) (chat : Int)
    (m : Metrics) (h0 : m.tx_hash = "") :
    send_buy_alert rf wf dOk store chat m =
      { store := store, sent := true, delivered := dOk,
        lookedUp := false, recorded := false } ∧
    ∀ n, sendsFor chat "" store (List.replicate n (dOk, chat, m)) = n := by
  constructor
  · simp [send_buy_alert, h0]
  · intro n
    induction n with
    | zero => rfl
    | succ k ih =>
      rw [List.replicate_succ, sendsFor_empty_hash_step chat store dOk m h0, ih]
      omega

/-- C9 witness: an empty-hash payload is sent without touching the store, and
three consecutive sweeps produce three deliveries. -/
theorem C9_empty_hash_witness :
    send_buy_alert true true true [] 7 mEmptyHash =
      { store := [], sent := true, delivered := true,
        lookedUp := false, recorded := false } ∧
    sendsFor 7 "" [] (List.replicate 3 (true, 7, mEmptyHash)) = 3 :=
  ⟨(C9_empty_hash true true true [] 7 mEmptyHash rfl).1,
   (C9_empty_hash true true true [] 7 mEmptyHash rfl).2 3⟩

/-- C10: when the underlying store query raises, `is_transaction_processed`
returns `False` — the dedup gate fails open and no error reaches the caller,
so the alert path still sends (the event is treated as not yet alerted). -/
theorem C10_fails_open (store : Store) (chat : Int) (m : Metrics)
    (wf dOk : Bool) :
    is_transaction_processed true store chat m.tx_hash = false ∧
    (m.tx_hash ≠ "" → (send_buy_alert true wf dOk store chat m).sent = true) := by
  constructor
  · rfl
  · intro hne
    simp [send_buy_alert, is_transaction_processed, hne]

/-- C10 witness: even with the pair already recorded in the store, a faulting
read yields `False` and the alert is sent again. -/
theorem C10_fails_open_witness :
    is_transaction_processed true [(7, "0xabc")] 7 mAbc.tx_hash = false ∧
    (send_buy_alert true false true [(7, "0xabc")] 7 mAbc).sent = true :=
  ⟨(C10_fails_open [(7, "0xabc")] 7 mAbc false true).1,
   (C10_fails_open [(7, "0xabc")] 7 mAbc false true).2 (by decide)⟩

end TgAlert
